import Mathlib

/-!
Verification of the scraping-coordination core of `around-the-grounds`.

The embedding follows the Python sources:
  * `around_the_grounds/models/brewery.py`, `models/schedule.py` — data model;
  * `around_the_grounds/parsers/base.py` — shared validation and filtering;
  * `around_the_grounds/parsers/registry.py` — parser registry;
  * `around_the_grounds/scrapers/coordinator.py` — retry loop, error
    classification, aggregation, time-window filter and sort;
  * `around_the_grounds/utils/timezone_utils.py` — reference-timezone helpers.

Datetimes are modelled as whole minutes on an affine timeline: a timezone-naive
datetime counts minutes since 2025-01-01 00:00 on its own clock, an absolute
instant counts minutes since 2025-01-01 00:00 UTC.  `datetime.date()` is floor
division by the 1440 minutes of one day, so dates are day numbers with day 0 =
2025-01-01.  Whole minutes suffice: every comparison and every arithmetic step
performed by the modelled code stays on minute boundaries.
-/

/-- Python `datetime.date()` on a minute-valued datetime: the (floor) day
number of the timeline. -/
def minutesDate (t : Int) : Int := t.fdiv 1440

/-- Source descriptor, from `models/brewery.py` (`Brewery`).  `parser_config`
defaults to an empty mapping via `__post_init__` and is opaque to the
coordinator. -/
structure Brewery where
  key : String
  name : String
  url : String
  parser_config : List (String × String) := []
deriving DecidableEq, Repr

/-- Normalized event, from `models/schedule.py` (`FoodTruckEvent`).  The
dataclass annotates `date : datetime`, but `validate_event` explicitly guards a
missing (`None`) date, so the field is an `Option` here; `start_time`,
`end_time` and `description` are `Optional` in the source.  A Python `None`
string field and an empty string are both falsy in the places the code tests
them, so string fields are plain `String`, with `""` standing for both. -/
structure FoodTruckEvent where
  brewery_key : String
  brewery_name : String
  food_truck_name : String
  date : Option Int
  start_time : Option Int := none
  end_time : Option Int := none
  description : Option String := none
deriving DecidableEq, Repr

/-- Python `str.strip()`: drop whitespace from both ends of the string. -/
def pyStrip (s : String) : String :=
  String.mk
    (((s.data.dropWhile Char.isWhitespace).reverse.dropWhile Char.isWhitespace).reverse)

/-- BaseParser.validate_event, `parsers/base.py` lines 58-74: reject when
`not brewery_key or not brewery_name`, when `not food_truck_name or
food_truck_name.strip() == ""`, or when `not date`; accept otherwise. -/
def validate_event (event : FoodTruckEvent) : Bool :=
  if event.brewery_key = "" ∨ event.brewery_name = "" then false
  else if event.food_truck_name = "" ∨ pyStrip event.food_truck_name = "" then false
  else if event.date.isNone then false
  else true

/-- BaseParser.filter_valid_events, `parsers/base.py` lines 76-87: a loop that
appends each event passing `validate_event` to an accumulator list. -/
def filter_valid_events (events : List FoodTruckEvent) : List FoodTruckEvent :=
  events.foldl
    (fun valid_events event =>
      if validate_event event then valid_events ++ [event] else valid_events)
    []

/-- ScrapingError from `scrapers/coordinator.py` lines 12-33.  The `timestamp`
field (`datetime.now()`) is omitted: it never influences control flow and no
claim inspects it. -/
structure ScrapingError where
  brewery : Brewery
  error_type : String
  message : String
  details : Option String := none
deriving DecidableEq, Repr

/-- Python exceptions relevant to parser resolution in
`_scrape_brewery_with_error_handling`: the `try` around
`ParserRegistry.get_parser` catches only `KeyError`, so every other exception
escapes the per-source coroutine. -/
inductive PyExn where
  | keyError (msg : String)
  | valueError (msg : String)
  | other (msg : String)
deriving DecidableEq, Repr

/-- Python `str(exception)` for the exceptions modelled here. -/
def PyExn.toStr : PyExn → String
  | .keyError msg => msg
  | .valueError msg => msg
  | .other msg => msg

/-- The seven concrete parser classes registered in `parsers/registry.py`. -/
inductive ParserClass where
  | squarespaceCalendar
  | hiveyApi
  | seattleFoodTruckApi
  | googleSheetsCsv
  | htmlSelectors
  | regexText
  | textSearchHtml
deriving DecidableEq, Repr

/-- ParserRegistry._parsers, `parsers/registry.py` lines 10-28: the
technology-based keys followed by the legacy brewery-specific keys. -/
def registry_parsers : List (String × ParserClass) := [
  ("squarespace_calendar", .squarespaceCalendar),
  ("hivey_api", .hiveyApi),
  ("seattle_food_truck_api", .seattleFoodTruckApi),
  ("google_sheets_csv", .googleSheetsCsv),
  ("html_selectors", .htmlSelectors),
  ("regex_text", .regexText),
  ("text_search_html", .textSearchHtml),
  ("stoup-ballard", .htmlSelectors),
  ("yonder-balebreaker", .squarespaceCalendar),
  ("obec-brewing", .regexText),
  ("urban-family", .hiveyApi),
  ("wheelie-pop", .textSearchHtml),
  ("chucks-greenwood", .googleSheetsCsv),
  ("salehs-corner", .seattleFoodTruckApi)]

/-- ParserRegistry.get_parser, `parsers/registry.py` lines 30-34: when the key
has no mapping it raises `ValueError` — not `KeyError`. -/
def get_parser_class (key : String) : Except PyExn ParserClass :=
  match registry_parsers.find? (fun p => p.1 == key) with
  | some p => .ok p.2
  | none => .error (.valueError ("No parser found for key: " ++ key))

/-- Outcome of one `parser.parse(session)` call, as the `except` chain of the
retry loop classifies it: a returned event list, `asyncio.TimeoutError` or
`aiohttp.ServerTimeoutError`, `aiohttp.ClientError`, `ValueError` (the parsers
signal every parse failure as `ValueError`), or any other exception. -/
inductive Attempt where
  | success (events : List FoodTruckEvent)
  | timeout
  | clientError (msg : String)
  | valueError (msg : String)
  | otherError (msg : String)
deriving DecidableEq, Repr

/-- The failure classes the retry loop retries: timeouts, other client/network
errors, and unknown exceptions.  `ValueError` is terminal, and a success is not
a failure. -/
def Attempt.isRetryableFailure : Attempt → Bool
  | .timeout => true
  | .clientError _ => true
  | .otherError _ => true
  | .success _ => false
  | .valueError _ => false

/-- One per-source run of the retry loop: the events returned, the error
appended to `self.errors` (if any), the number of `parser.parse` calls made,
and the `asyncio.sleep` backoff waits performed, in order (in seconds, the
unit the code passes to `asyncio.sleep`). -/
structure SourceOutcome where
  events : List FoodTruckEvent
  error : Option ScrapingError
  parseAttempts : Nat
  waits : List Nat
deriving DecidableEq, Repr

/-- The "Network Timeout" ScrapingError built at `coordinator.py` lines
123-128. -/
def timeout_error (b : Brewery) (timeoutTotal maxRetries : Nat) : ScrapingError :=
  { brewery := b
    error_type := "Network Timeout"
    message := "Connection timeout after " ++ toString timeoutTotal ++ "s"
    details := some ("Failed after " ++ toString maxRetries ++ " attempts") }

/-- The "Network Error" ScrapingError built at `coordinator.py` lines
142-147. -/
def network_error (b : Brewery) (msg : String) (maxRetries : Nat) : ScrapingError :=
  { brewery := b
    error_type := "Network Error"
    message := "Network error: " ++ msg
    details := some ("Failed after " ++ toString maxRetries ++ " attempts") }

/-- The "Parser Error" ScrapingError built at `coordinator.py` lines
162-167. -/
def parser_error (b : Brewery) (msg : String) : ScrapingError :=
  { brewery := b
    error_type := "Parser Error"
    message := "Parsing failed: " ++ msg
    details := some msg }

/-- The "Unexpected Error" ScrapingError built at `coordinator.py` lines
176-181 (last retry of an unknown exception). -/
def unexpected_error (b : Brewery) (msg : String) : ScrapingError :=
  { brewery := b
    error_type := "Unexpected Error"
    message := "Unexpected error: " ++ msg
    details := some msg }

/-- The "Configuration Error" ScrapingError built at `coordinator.py` lines
101-106, inside the `except KeyError` handler. -/
def configuration_error (b : Brewery) (detail : String) : ScrapingError :=
  { brewery := b
    error_type := "Configuration Error"
    message := "Parser not found for brewery key: " ++ b.key
    details := some detail }

/-- The `for attempt in range(max_retries)` loop of
`_scrape_brewery_with_error_handling`, `coordinator.py` lines 111-194, indexed
by the number of loop iterations still available; the current 0-based attempt
index is `maxRetries - remaining`, and `remaining = 1` is the last iteration
(`attempt == max_retries - 1`).  `behavior k` is what `parser.parse` does on
attempt `k`.  `remaining = 0` is the trailing `return []` after the loop. -/
def attempt_loop (b : Brewery) (timeoutTotal maxRetries : Nat)
    (behavior : Nat → Attempt) : Nat → SourceOutcome
  | 0 => { events := [], error := none, parseAttempts := 0, waits := [] }
  | r + 1 =>
    match behavior (maxRetries - (r + 1)) with
    | .success evs =>
      { events := evs, error := none, parseAttempts := 1, waits := [] }
    | .timeout =>
      if r = 0 then
        { events := [], error := some (timeout_error b timeoutTotal maxRetries)
          parseAttempts := 1, waits := [] }
      else
        let rest := attempt_loop b timeoutTotal maxRetries behavior r
        { events := rest.events, error := rest.error
          parseAttempts := rest.parseAttempts + 1
          waits := 2 ^ (maxRetries - (r + 1)) :: rest.waits }
    | .clientError msg =>
      if r = 0 then
        { events := [], error := some (network_error b msg maxRetries)
          parseAttempts := 1, waits := [] }
      else
        let rest := attempt_loop b timeoutTotal maxRetries behavior r
        { events := rest.events, error := rest.error
          parseAttempts := rest.parseAttempts + 1
          waits := 2 ^ (maxRetries - (r + 1)) :: rest.waits }
    | .valueError msg =>
      { events := [], error := some (parser_error b msg)
        parseAttempts := 1, waits := [] }
    | .otherError msg =>
      if r = 0 then
        { events := [], error := some (unexpected_error b msg)
          parseAttempts := 1, waits := [] }
      else
        let rest := attempt_loop b timeoutTotal maxRetries behavior r
        { events := rest.events, error := rest.error
          parseAttempts := rest.parseAttempts + 1
          waits := 2 ^ (maxRetries - (r + 1)) :: rest.waits }

/-- `_scrape_brewery_with_error_handling`, `coordinator.py` lines 89-194.  The
`try` around parser resolution (lines 96-109) catches only `KeyError`;
`get_parser` raises `ValueError` for an unknown key, which therefore escapes
the per-source coroutine as `.error`. -/
def scrape_brewery_with_error_handling (b : Brewery) (timeoutTotal maxRetries : Nat)
    (behavior : Nat → Attempt) : Except PyExn SourceOutcome :=
  match get_parser_class b.key with
  | .error (.keyError msg) =>
    .ok { events := [], error := some (configuration_error b msg)
          parseAttempts := 0, waits := [] }
  | .error e => .error e
  | .ok _ => .ok (attempt_loop b timeoutTotal maxRetries behavior maxRetries)

deriving instance DecidableEq for Except

/-- One source's contribution as `scrape_all` aggregates it, `coordinator.py`
lines 64-84: `asyncio.gather(..., return_exceptions=True)` hands a coroutine's
escaped exception back as a value, and the `isinstance(result, Exception)`
branch converts it into an "Unexpected Error" record with no events. -/
def source_result (b : Brewery) (timeoutTotal maxRetries : Nat)
    (behavior : Nat → Attempt) : List FoodTruckEvent × List ScrapingError :=
  match scrape_brewery_with_error_handling b timeoutTotal maxRetries behavior with
  | .ok out => (out.events, out.error.toList)
  | .error e =>
    ([], [{ brewery := b
            error_type := "Unexpected Error"
            message := "Unexpected error: " ++ e.toStr
            details := some e.toStr }])

/-- `event.date` as the coordinator reads it.  Python would raise
`AttributeError` on a `None` date there; every event reaching the coordinator
comes from a parser, and the theorems below either fix the date explicitly or
leave it irrelevant, so the default is never exercised. -/
def event_date (e : FoodTruckEvent) : Int := e.date.getD 0

/-- The sort key `(x.date, x.start_time or x.date)` of `coordinator.py` line
218: both components are full naive datetimes, and a missing `start_time`
falls back to the `date` datetime itself. -/
def sort_key (e : FoodTruckEvent) : Int × Int :=
  (event_date e, e.start_time.getD (event_date e))

/-- Lexicographic comparison of the Python key tuples, the order
`list.sort(key=...)` sorts by. -/
def key_le (a b : FoodTruckEvent) : Bool :=
  decide ((sort_key a).1 < (sort_key b).1 ∨
    ((sort_key a).1 = (sort_key b).1 ∧ (sort_key a).2 ≤ (sort_key b).2))

/-- The window test `now.date() <= event.date.date() <= one_week_later.date()`
of `coordinator.py` lines 211-215, with `one_week_later = now +
timedelta(days=7)`; `nowLocal` is the naive reading of whatever clock
`_filter_and_sort_events` used for `now`. -/
def in_window (nowLocal : Int) (e : FoodTruckEvent) : Bool :=
  decide (minutesDate nowLocal ≤ minutesDate (event_date e) ∧
    minutesDate (event_date e) ≤ minutesDate (nowLocal + 7 * 1440))

/-- Stable insertion of `e` into an already-sorted list: `e` goes after every
element `x` with `le x e`, so an element already present never moves across an
equal-keyed newcomer. -/
def stable_insert {α : Type} (le : α → α → Bool) (e : α) : List α → List α
  | [] => [e]
  | x :: xs => if le x e then x :: stable_insert le e xs else e :: x :: xs

/-- Stable sort by `le`, inserting the elements left to right.  Python's
`list.sort` is a stable sort by the key; a stable sort with respect to a total
transitive comparison has a unique result, so this insertion sort computes
exactly the list `list.sort` produces. -/
def stable_sort {α : Type} (le : α → α → Bool) (l : List α) : List α :=
  l.foldl (fun acc e => stable_insert le e acc) []

/-- `_filter_and_sort_events`, `coordinator.py` lines 196-220.  `now` is
`datetime.now(timezone(timedelta(hours=-8)))` — a fixed UTC-8 offset (the
comment in the source says "PST (PDT would be -7, but keeping simple)") — so
the naive local clock reads `nowUtc - 480` minutes. -/
def filter_and_sort_events (nowUtc : Int) (events : List FoodTruckEvent) :
    List FoodTruckEvent :=
  stable_sort key_le (events.filter (in_window (nowUtc - 480)))

/-- Result of one full `scrape_all` run: the filtered, sorted events and the
collected per-run error list. -/
structure CoordinatorRun where
  events : List FoodTruckEvent
  errors : List ScrapingError
deriving DecidableEq, Repr

/-- `scrape_all`, `coordinator.py` lines 46-87: reset errors, run every
brewery's task, aggregate, then filter and sort.  `behavior i k` is what
source number `i`'s `parser.parse` does on its attempt `k`.  Errors are listed
source by source in list order; real `asyncio` interleaves the appends
nondeterministically, and every claim below counts errors per source, never
across sources. -/
def scrape_all (nowUtc : Int) (timeoutTotal maxRetries : Nat)
    (breweries : List Brewery) (behavior : Nat → Nat → Attempt) : CoordinatorRun :=
  let results := breweries.enum.map
    (fun p => source_result p.2 timeoutTotal maxRetries (behavior p.1))
  { events := filter_and_sort_events nowUtc (results.map Prod.fst).flatten
    errors := (results.map Prod.snd).flatten }

/-- Modelled from the spec: the Time Normalizer's reference timezone is
`ZoneInfo("America/Los_Angeles")` (`timezone_utils.py` line 18), whose seasonal
rules live in the external IANA database, not in the repository.  During 2025
the UTC offset is -420 minutes (PDT) from 2025-03-09 10:00 UTC (minute 97080)
to 2025-11-02 09:00 UTC (minute 439740) and -480 minutes (PST) otherwise. -/
def pacific_offset (u : Int) : Int :=
  if 97080 ≤ u ∧ u < 439740 then -420 else -480

/-- Modelled from the spec and `timezone_utils.now_in_pacific`: the current
instant read on the reference-timezone clock, as naive minutes. -/
def now_in_pacific (u : Int) : Int := u + pacific_offset u

/-- Modelled from the spec, §4.4 step 5: `_filter_and_sort_events` as the spec
prescribes it, with "today" taken from the Time Normalizer instead of the
fixed UTC-8 offset.  Only the source of `now` differs from
`filter_and_sort_events`. -/
def filter_and_sort_events_spec (nowUtc : Int) (events : List FoodTruckEvent) :
    List FoodTruckEvent :=
  stable_sort key_le (events.filter (in_window (now_in_pacific nowUtc)))

/-! Concrete fixtures used by the counterexamples and witnesses.  Day numbers:
2025-06-30 = day 180, 2025-07-01 = day 181, 2025-07-03 = day 183, 2025-10-30 =
day 302; minute values are `day * 1440 + minutes past midnight`. -/

/-- A brewery whose key the registry maps (legacy key for the HTML-selectors
parser). -/
def stoup : Brewery :=
  { key := "stoup-ballard", name := "Stoup Brewing", url := "https://example.org/stoup" }

/-- A second registered brewery, for sibling-isolation statements. -/
def obec : Brewery :=
  { key := "obec-brewing", name := "Obec Brewing", url := "https://example.org/obec" }

/-- A brewery whose key has no registry mapping. -/
def unknownBrewery : Brewery :=
  { key := "no-such-source", name := "Ghost Taproom", url := "https://example.org/ghost" }

/-- The run instant for the concrete scenarios: 2025-07-01 07:30 UTC, i.e.
00:30 PDT — pacific and fixed-UTC-8 dates disagree here. -/
def u0 : Int := 261090

/-- An event on 2025-07-03 with no start time. -/
def evNoTime : FoodTruckEvent :=
  { brewery_key := "stoup-ballard", brewery_name := "Stoup Brewing"
    food_truck_name := "Taco Truck", date := some 263520 }

/-- An event on 2025-07-03 starting at 14:00. -/
def evTimed : FoodTruckEvent :=
  { brewery_key := "stoup-ballard", brewery_name := "Stoup Brewing"
    food_truck_name := "Burger Bus", date := some 263520
    start_time := some 264360 }

/-- An event on 2025-07-03 whose reported end time (13:00) precedes its start
time (14:00). -/
def evBad : FoodTruckEvent :=
  { brewery_key := "stoup-ballard", brewery_name := "Stoup Brewing"
    food_truck_name := "Wrap Wagon", date := some 263520
    start_time := some 264360, end_time := some 264300 }

/-- An event dated 2025-07-08 — `today + 7` for a pacific 2025-07-01 run. -/
def evJul8 : FoodTruckEvent :=
  { brewery_key := "stoup-ballard", brewery_name := "Stoup Brewing"
    food_truck_name := "Crepe Cart", date := some 270720 }

/-- An event dated 2025-07-07, day 187 — the last day of the code's window for
the `u0` run. -/
def evDay187 : FoodTruckEvent :=
  { brewery_key := "obec-brewing", brewery_name := "Obec Brewing"
    food_truck_name := "Pizza Oven", date := some 269280 }

/-- An event dated 2025-06-29, day 179 — the day before the code's window for
the `u0` run. -/
def evDay179 : FoodTruckEvent :=
  { brewery_key := "obec-brewing", brewery_name := "Obec Brewing"
    food_truck_name := "Poke Bowl", date := some 257760 }

/-! Helper lemmas. -/

theorem foldl_filter_acc :
    ∀ (events acc : List FoodTruckEvent),
      List.foldl
        (fun valid_events event =>
          if validate_event event then valid_events ++ [event] else valid_events)
        acc events
      = acc ++ events.filter validate_event
  | [], acc => by simp
  | e :: es, acc => by
    by_cases h : validate_event e
    · simp [List.foldl_cons, h, foldl_filter_acc es (acc ++ [e]), List.filter_cons]
    · simp [List.foldl_cons, h, foldl_filter_acc es acc, List.filter_cons]

theorem filter_valid_events_eq_filter (events : List FoodTruckEvent) :
    filter_valid_events events = events.filter validate_event := by
  simpa [filter_valid_events] using foldl_filter_acc events []

theorem key_le_trans (a b c : FoodTruckEvent)
    (hab : key_le a b = true) (hbc : key_le b c = true) : key_le a c = true := by
  simp only [key_le, decide_eq_true_eq] at hab hbc ⊢
  omega

theorem key_le_total (a b : FoodTruckEvent) : (key_le a b || key_le b a) = true := by
  simp only [key_le, Bool.or_eq_true, decide_eq_true_eq]
  omega

theorem stable_insert_perm {α : Type} (le : α → α → Bool) (e : α) :
    ∀ l : List α, (stable_insert le e l).Perm (e :: l)
  | [] => List.Perm.refl _
  | x :: xs => by
    simp only [stable_insert]
    by_cases h : le x e
    · simp only [h, if_true]
      exact ((stable_insert_perm le e xs).cons x).trans (List.Perm.swap e x xs)
    · simp [h]

theorem stable_insert_pairwise {α : Type} (le : α → α → Bool)
    (htrans : ∀ a b c, le a b = true → le b c = true → le a c = true)
    (htot : ∀ a b, (le a b || le b a) = true) (e : α) :
    ∀ l : List α, l.Pairwise (fun a b => le a b = true) →
      (stable_insert le e l).Pairwise (fun a b => le a b = true)
  | [], _ => List.Pairwise.cons (by simp) List.Pairwise.nil
  | x :: xs, h => by
    rcases List.pairwise_cons.mp h with ⟨hx, hxs⟩
    simp only [stable_insert]
    by_cases hxe : le x e = true
    · simp only [hxe, if_true]
      refine List.pairwise_cons.mpr
        ⟨?_, stable_insert_pairwise le htrans htot e xs hxs⟩
      intro y hy
      rcases List.mem_cons.mp ((stable_insert_perm le e xs).mem_iff.mp hy) with rfl | hy'
      · exact hxe
      · exact hx y hy'
    · have hex : le e x = true := by
        have := htot x e
        simpa [hxe] using this
      simp only [hxe, if_false]
      refine List.pairwise_cons.mpr ⟨?_, h⟩
      intro y hy
      rcases List.mem_cons.mp hy with rfl | hy'
      · exact hex
      · exact htrans e x y hex (hx y hy')

theorem stable_sort_go_perm {α : Type} (le : α → α → Bool) :
    ∀ (l acc : List α),
      (List.foldl (fun acc e => stable_insert le e acc) acc l).Perm (acc ++ l)
  | [], acc => by simp
  | e :: es, acc => by
    have h1 := stable_sort_go_perm le es (stable_insert le e acc)
    have h2 : (stable_insert le e acc).Perm (e :: acc) := stable_insert_perm le e acc
    refine (h1.trans (h2.append_right es)).trans ?_
    simpa using List.perm_middle.symm

theorem stable_sort_perm {α : Type} (le : α → α → Bool) (l : List α) :
    (stable_sort le l).Perm l := by
  simpa [stable_sort] using stable_sort_go_perm le l []

theorem stable_sort_go_pairwise {α : Type} (le : α → α → Bool)
    (htrans : ∀ a b c, le a b = true → le b c = true → le a c = true)
    (htot : ∀ a b, (le a b || le b a) = true) :
    ∀ (l acc : List α), acc.Pairwise (fun a b => le a b = true) →
      (List.foldl (fun acc e => stable_insert le e acc) acc l).Pairwise
        (fun a b => le a b = true)
  | [], _, h => h
  | e :: es, acc, h =>
    stable_sort_go_pairwise le htrans htot es (stable_insert le e acc)
      (stable_insert_pairwise le htrans htot e acc h)

theorem stable_sort_pairwise {α : Type} (le : α → α → Bool)
    (htrans : ∀ a b c, le a b = true → le b c = true → le a c = true)
    (htot : ∀ a b, (le a b || le b a) = true) (l : List α) :
    (stable_sort le l).Pairwise (fun a b => le a b = true) :=
  stable_sort_go_pairwise le htrans htot l [] List.Pairwise.nil

theorem minutesDate_add_week (t : Int) :
    minutesDate (t + 7 * 1440) = minutesDate t + 7 := by
  unfold minutesDate
  rw [Int.fdiv_eq_ediv _ (by norm_num), Int.fdiv_eq_ediv _ (by norm_num),
    Int.add_mul_ediv_right _ _ (by norm_num)]

theorem attempt_loop_events_of_error (b : Brewery) (t m : Nat) (beh : Nat → Attempt) :
    ∀ r, (attempt_loop b t m beh r).error.isSome = true →
      (attempt_loop b t m beh r).events = []
  | 0, h => by simp [attempt_loop] at h
  | r + 1, h => by
    have ih := attempt_loop_events_of_error b t m beh r
    cases hb : beh (m - (r + 1))
    case success evs => simp [attempt_loop, hb] at h
    case valueError msg => simp [attempt_loop, hb]
    all_goals (
      simp only [attempt_loop, hb] at h ⊢
      by_cases hr : r = 0
      · simp [hr]
      · simp only [hr, if_false] at h ⊢
        exact ih h)

theorem attempt_loop_attempts_le (b : Brewery) (t m : Nat) (beh : Nat → Attempt) :
    ∀ r, (attempt_loop b t m beh r).parseAttempts ≤ r
  | 0 => by simp [attempt_loop]
  | r + 1 => by
    have ih := attempt_loop_attempts_le b t m beh r
    cases hb : beh (m - (r + 1))
    case success evs => simp [attempt_loop, hb]
    case valueError msg => simp [attempt_loop, hb]
    all_goals (
      simp only [attempt_loop, hb]
      by_cases hr : r = 0
      · simp [hr]
      · simp only [hr, if_false]
        omega)

theorem attempt_loop_retry_all (b : Brewery) (t m : Nat) (beh : Nat → Attempt)
    (hbeh : ∀ k, (beh k).isRetryableFailure = true) :
    ∀ r, 1 ≤ r → r ≤ m →
      (attempt_loop b t m beh r).parseAttempts = r ∧
      (attempt_loop b t m beh r).events = [] ∧
      (attempt_loop b t m beh r).waits
        = (List.range (r - 1)).map (fun j => 2 ^ (m - r + j))
  | 0, h1, _ => by omega
  | r + 1, _, hm => by
    cases hb : beh (m - (r + 1))
    case success evs =>
      have hc := hbeh (m - (r + 1))
      rw [hb] at hc
      simp [Attempt.isRetryableFailure] at hc
    case valueError msg =>
      have hc := hbeh (m - (r + 1))
      rw [hb] at hc
      simp [Attempt.isRetryableFailure] at hc
    all_goals (
      by_cases hr : r = 0
      · subst hr
        simp [attempt_loop, hb]
      · obtain ⟨ha, he, hw⟩ :=
          attempt_loop_retry_all b t m beh hbeh r (by omega) (by omega)
        simp only [attempt_loop, hb, hr, if_false]
        refine ⟨by rw [ha], he, ?_⟩
        rw [hw]
        obtain ⟨r2, rfl⟩ : ∃ r2, r = r2 + 1 := ⟨r - 1, by omega⟩
        simp only [Nat.add_sub_cancel]
        rw [List.range_succ_eq_map, List.map_cons, List.map_map]
        congr 1
        refine List.map_congr_left fun j hj => ?_
        simp only [Function.comp_apply]
        congr 1
        omega)

theorem attempt_loop_value_error (b : Brewery) (t m : Nat) (beh : Nat → Attempt)
    (msg : String) :
    ∀ r k, r ≤ m → k < r →
      (∀ i, i < k → (beh (m - r + i)).isRetryableFailure = true) →
      beh (m - r + k) = .valueError msg →
      attempt_loop b t m beh r =
        { events := [], error := some (parser_error b msg)
          parseAttempts := k + 1
          waits := (List.range k).map (fun j => 2 ^ (m - r + j)) }
  | 0, k, _, hk, _, _ => by omega
  | r + 1, 0, _, _, _, hval => by
    rw [Nat.add_zero] at hval
    simp [attempt_loop, hval]
  | r + 1, k + 1, hm, hk, hpre, hval => by
    have hr0 : ¬ (r = 0) := by omega
    have h0 : (beh (m - (r + 1))).isRetryableFailure = true := by
      have hc := hpre 0 (by omega)
      rwa [Nat.add_zero] at hc
    have ih := attempt_loop_value_error b t m beh msg r k (by omega) (by omega)
      (fun i hi => by
        have hc := hpre (i + 1) (by omega)
        have harg : m - (r + 1) + (i + 1) = m - r + i := by omega
        rwa [harg] at hc)
      (by
        have harg : m - (r + 1) + (k + 1) = m - r + k := by omega
        rwa [harg] at hval)
    cases hb : beh (m - (r + 1))
    case success evs => rw [hb] at h0; simp [Attempt.isRetryableFailure] at h0
    case valueError msg2 => rw [hb] at h0; simp [Attempt.isRetryableFailure] at h0
    all_goals (
      simp only [attempt_loop, hb, hr0, if_false]
      rw [ih]
      simp only [SourceOutcome.mk.injEq, true_and, and_true, eq_self_iff_true]
      rw [List.range_succ_eq_map, List.map_cons, List.map_map]
      congr 1
      refine List.map_congr_left fun j hj => ?_
      simp only [Function.comp_apply]
      congr 1
      omega)

theorem source_result_dichotomy (b : Brewery) (t m : Nat) (beh : Nat → Attempt) :
    (source_result b t m beh).2 = [] ∨
      ((source_result b t m beh).2.length = 1 ∧ (source_result b t m beh).1 = []) := by
  unfold source_result
  cases hs : scrape_brewery_with_error_handling b t m beh with
  | error e => exact Or.inr (by simp)
  | ok out =>
    have hev : out.error.isSome = true → out.events = [] := by
      intro hsome
      cases hg : get_parser_class b.key with
      | ok pc =>
        simp only [scrape_brewery_with_error_handling, hg] at hs
        simp only [Except.ok.injEq] at hs
        subst hs
        exact attempt_loop_events_of_error b t m beh m hsome
      | error e2 =>
        cases e2 with
        | keyError msg =>
          simp only [scrape_brewery_with_error_handling, hg] at hs
          simp only [Except.ok.injEq] at hs
          subst hs
          rfl
        | valueError msg =>
          simp only [scrape_brewery_with_error_handling, hg] at hs
          exact absurd hs (by simp)
        | other msg =>
          simp only [scrape_brewery_with_error_handling, hg] at hs
          exact absurd hs (by simp)
    cases ho : out.error with
    | none => exact Or.inl (by simp [ho])
    | some err =>
      refine Or.inr ⟨by simp [ho], ?_⟩
      simpa using hev (by simp [ho])

/-- C1: for a source whose `parser_type` has no registry mapping the
coordinator makes zero parse attempts, never retries, returns no events and
records exactly one error — but its kind is "Unexpected Error", not
"Configuration Error": `ParserRegistry.get_parser` raises `ValueError` while
the per-source handler catches only `KeyError`, so the exception escapes the
task and the `isinstance(result, Exception)` fallback of `scrape_all` converts
it.  This theorem evaluates the code on such a source, for every retry budget
and every parser behavior. -/
theorem c1_unknown_parser_kind_is_unexpected :
    ∀ (t m : Nat) (beh : Nat → Attempt),
      scrape_brewery_with_error_handling unknownBrewery t m beh
        = .error (.valueError "No parser found for key: no-such-source") ∧
      source_result unknownBrewery t m beh
        = ([], [{ brewery := unknownBrewery
                  error_type := "Unexpected Error"
                  message := "Unexpected error: No parser found for key: no-such-source"
                  details := some "No parser found for key: no-such-source" }]) ∧
      (∀ (nowUtc : Int) (behavior : Nat → Nat → Attempt),
        scrape_all nowUtc t m [unknownBrewery] behavior
          = { events := []
              errors := [{ brewery := unknownBrewery
                           error_type := "Unexpected Error"
                           message := "Unexpected error: No parser found for key: no-such-source"
                           details := some "No parser found for key: no-such-source" }] }) :=
  fun _ _ _ => ⟨rfl, rfl, fun _ _ => rfl⟩

/-- C2: the claim says the final filter's "today" comes from the Time
Normalizer (DST-aware reference timezone).  The code instead uses the fixed
UTC-8 offset `timezone(timedelta(hours=-8))`.  At 2025-07-01 07:30 UTC (00:30
PDT) the reference timezone says today is 2025-07-01 (day 181) while the fixed
offset says 2025-06-30 (day 180), so an event dated 2025-07-08 — inside the
spec's window — is dropped by the code. -/
theorem c2_fixed_offset_diverges_from_normalizer :
    minutesDate (u0 - 480) = 180 ∧
    minutesDate (now_in_pacific u0) = 181 ∧
    filter_and_sort_events u0 [evJul8] = [] ∧
    filter_and_sort_events_spec u0 [evJul8] = [evJul8] :=
  ⟨by decide, by decide, by decide, by decide⟩

/-- C3 counterexample: `evBad` reports `end_time` (13:00) before `start_time`
(14:00) on 2025-07-03, yet `validate_event` accepts it, `filter_valid_events`
keeps it, and a full coordinator run returns it — refuting the claim that the
shared validation path rejects events with `end_time <= start_time`. -/
theorem c3_counterexample :
    evBad.start_time = some 264360 ∧ evBad.end_time = some 264300 ∧
    validate_event evBad = true ∧
    filter_valid_events [evBad] = [evBad] ∧
    (scrape_all u0 60 3 [stoup] (fun _ _ => .success [evBad])).events = [evBad] :=
  ⟨rfl, rfl, by decide, by decide, by decide⟩

/-- C3 amended: the shared validation path checks only source identity, the
trimmed event name and date presence; it ignores `start_time` and `end_time`
entirely, so an event with `end_time <= start_time` passes `validate_event`
and `filter_valid_events` and a full coordinator run can return it. -/
theorem c3_no_time_order_check :
    (∀ (e : FoodTruckEvent) (s t2 : Option Int),
      validate_event { e with start_time := s, end_time := t2 } = validate_event e) ∧
    validate_event evBad = true ∧
    (scrape_all u0 60 3 [stoup] (fun _ _ => .success [evBad])).events = [evBad] :=
  ⟨fun _ _ _ => rfl, by decide, by decide⟩

/-- C4: every per-source task yields either (zero-or-more events, no error) or
(no events, exactly one error), and `scrape_all` is their independent
composition: its error list and merged event list are the concatenations of
each source's own contribution, so one source's failure never disturbs the
others, and the run as a whole is a total function — the gather boundary turns
any escaped exception into that source's single error record. -/
theorem c4_failure_isolation :
    ∀ (nowUtc : Int) (t m : Nat) (breweries : List Brewery)
      (behavior : Nat → Nat → Attempt),
      (∀ (b : Brewery) (beh : Nat → Attempt),
        (source_result b t m beh).2 = [] ∨
          ((source_result b t m beh).2.length = 1 ∧
           (source_result b t m beh).1 = [])) ∧
      (scrape_all nowUtc t m breweries behavior).errors
        = (breweries.enum.map
            (fun p => (source_result p.2 t m (behavior p.1)).2)).flatten ∧
      (scrape_all nowUtc t m breweries behavior).events
        = filter_and_sort_events nowUtc
            ((breweries.enum.map
              (fun p => (source_result p.2 t m (behavior p.1)).1)).flatten) := by
  intro nowUtc t m breweries behavior
  refine ⟨fun b beh => source_result_dichotomy b t m beh, ?_, ?_⟩ <;>
    simp [scrape_all, List.map_map, Function.comp_def]

/-- C5: the retry loop makes at most `max_retries` parse attempts; when every
attempt fails retryably it makes exactly `max_retries` attempts with backoff
waits of 2^0, 2^1, ... between consecutive attempts (wait 2^(k-1) before
attempt k); and a non-retryable `ValueError` at attempt k stops the loop at
k+1 attempts with no further wait, the waits so far being exactly 1, 2, 4, ...
-/
theorem c5_retry_backoff :
    ∀ (b : Brewery) (t m : Nat) (beh : Nat → Attempt) (msg : String) (k : Nat),
      (attempt_loop b t m beh m).parseAttempts ≤ m ∧
      ((∀ j, (beh j).isRetryableFailure = true) → 1 ≤ m →
        (attempt_loop b t m beh m).parseAttempts = m ∧
        (attempt_loop b t m beh m).waits
          = (List.range (m - 1)).map (fun j => 2 ^ j)) ∧
      (k < m → (∀ i, i < k → (beh i).isRetryableFailure = true) →
        beh k = .valueError msg →
        attempt_loop b t m beh m
          = { events := [], error := some (parser_error b msg)
              parseAttempts := k + 1
              waits := (List.range k).map (fun j => 2 ^ j) }) := by
  intro b t m beh msg k
  refine ⟨attempt_loop_attempts_le b t m beh m, ?_, ?_⟩
  · intro hbeh hm
    obtain ⟨ha, -, hw⟩ := attempt_loop_retry_all b t m beh hbeh m hm le_rfl
    refine ⟨ha, ?_⟩
    rw [hw]
    refine List.map_congr_left fun j hj => ?_
    congr 1
    omega
  · intro hk hpre hval
    have h := attempt_loop_value_error b t m beh msg m k le_rfl hk
      (fun i hi => by simpa [Nat.sub_self] using hpre i hi)
      (by simpa [Nat.sub_self] using hval)
    rw [h]
    simp [Nat.sub_self]

/-- C5 witness: with `max_retries = 3` and every attempt timing out, the loop
makes 3 attempts and waits 1 then 2 seconds; with a timeout then a
`ValueError`, it stops after 2 attempts having waited only the initial 1
second. -/
theorem c5_retry_backoff_witness :
    (attempt_loop stoup 60 3 (fun _ => Attempt.timeout) 3).parseAttempts = 3 ∧
    (attempt_loop stoup 60 3 (fun _ => Attempt.timeout) 3).waits = [1, 2] ∧
    attempt_loop stoup 60 3
        (fun j => if j = 0 then Attempt.timeout else Attempt.valueError "bad") 3
      = { events := [], error := some (parser_error stoup "bad")
          parseAttempts := 2, waits := [1] } := by
  obtain ⟨-, h2, -⟩ := c5_retry_backoff stoup 60 3 (fun _ => Attempt.timeout) "bad" 0
  obtain ⟨ha, hw⟩ := h2 (fun _ => rfl) (by omega)
  obtain ⟨-, -, h3⟩ := c5_retry_backoff stoup 60 3
    (fun j => if j = 0 then Attempt.timeout else Attempt.valueError "bad") "bad" 1
  have h3e := h3 (by omega)
    (fun i hi => by
      match i, hi with
      | 0, _ => rfl)
    rfl
  exact ⟨ha, hw.trans (by decide), h3e.trans (by decide)⟩

/-- C6: a registered source whose parser raises `ValueError` (the parsers'
ParseFailure) on the first attempt gets exactly one parse attempt, no backoff
wait, one "Parser Error" record and no events; in a two-source run the
sibling's contribution is exactly what it would produce on its own. -/
theorem c6_parse_failure_one_attempt :
    ∀ (b : Brewery) (t m : Nat) (beh : Nat → Attempt) (msg : String),
      (registry_parsers.find? (fun p => p.1 == b.key)).isSome = true →
      beh 0 = .valueError msg → 1 ≤ m →
      scrape_brewery_with_error_handling b t m beh
        = .ok { events := [], error := some (parser_error b msg)
                parseAttempts := 1, waits := [] } ∧
      source_result b t m beh = ([], [parser_error b msg]) ∧
      (∀ (nowUtc : Int) (sib : Brewery) (behavior : Nat → Nat → Attempt),
        behavior 0 = beh →
        scrape_all nowUtc t m [b, sib] behavior
          = { events := filter_and_sort_events nowUtc
                (source_result sib t m (behavior 1)).1
              errors := parser_error b msg
                :: (source_result sib t m (behavior 1)).2 }) := by
  intro b t m beh msg hreg h0 hm
  obtain ⟨p, hp⟩ := Option.isSome_iff_exists.mp hreg
  have hloop : attempt_loop b t m beh m
      = { events := [], error := some (parser_error b msg)
          parseAttempts := 1, waits := [] } := by
    have h := attempt_loop_value_error b t m beh msg m 0 le_rfl hm
      (fun i hi => by omega)
      (by simpa [Nat.sub_self] using h0)
    simpa using h
  have hsb : scrape_brewery_with_error_handling b t m beh
      = .ok { events := [], error := some (parser_error b msg)
              parseAttempts := 1, waits := [] } := by
    unfold scrape_brewery_with_error_handling get_parser_class
    rw [hp]
    simp [hloop]
  have hsr : source_result b t m beh = ([], [parser_error b msg]) := by
    unfold source_result
    rw [hsb]
    rfl
  refine ⟨hsb, hsr, ?_⟩
  intro nowUtc sib behavior hbeh0
  have hsr0 : source_result b t m (behavior 0) = ([], [parser_error b msg]) := by
    rw [hbeh0, hsr]
  simp [scrape_all, List.enum, List.enumFrom, hsr0]

/-- C6 witness: source `obec` raises a ParseFailure immediately while sibling
`stoup` succeeds with one event: the run returns the sibling's event and a
single "Parser Error" record for `obec`. -/
theorem c6_parse_failure_one_attempt_witness :
    scrape_all u0 60 3 [obec, stoup]
        (fun i => if i = 0 then (fun _ => Attempt.valueError "boom")
                  else (fun _ => Attempt.success [evNoTime]))
      = { events := [evNoTime], errors := [parser_error obec "boom"] } := by
  have h := (c6_parse_failure_one_attempt obec 60 3
      (fun _ => Attempt.valueError "boom") "boom" (by decide) rfl (by omega)).2.2
    u0 stoup
    (fun i => if i = 0 then (fun _ => Attempt.valueError "boom")
              else (fun _ => Attempt.success [evNoTime]))
    rfl
  exact h.trans (by decide)

/-- C7: the returned list is sorted non-decreasing by the key
`(date, start_time or date)`; an event without a start time uses its date
datetime (midnight) as the tiebreaker, so of two same-date events — one at
14:00, one untimed — the untimed one comes first. -/
theorem c7_sorted_by_date_then_start :
    (∀ (nowUtc : Int) (events : List FoodTruckEvent),
      (filter_and_sort_events nowUtc events).Pairwise
        (fun a b => key_le a b = true)) ∧
    filter_and_sort_events u0 [evTimed, evNoTime] = [evNoTime, evTimed] ∧
    sort_key evNoTime = (263520, 263520) ∧
    sort_key evTimed = (263520, 264360) :=
  ⟨fun _ events =>
      stable_sort_pairwise key_le key_le_trans key_le_total
        (events.filter (in_window _)),
    by decide, by decide, by decide⟩

/-- C8: the final filter keeps exactly the merged events dated within the
inclusive window `[today, today+7]` of the clock it reads (up to the sort's
reordering): day `today+7` is kept, `today+8` and `today-1` are dropped.  For
the `u0` run the code's today is day 180, so day 187 is kept while days 188
and 179 are dropped. -/
theorem c8_inclusive_seven_day_window :
    (∀ (nowUtc : Int) (events : List FoodTruckEvent),
      (filter_and_sort_events nowUtc events).Perm
        (events.filter (in_window (nowUtc - 480)))) ∧
    (∀ (nowLocal : Int) (e : FoodTruckEvent),
      in_window nowLocal e = true ↔
        (minutesDate nowLocal ≤ minutesDate (event_date e) ∧
         minutesDate (event_date e) ≤ minutesDate nowLocal + 7)) ∧
    filter_and_sort_events u0 [evDay187] = [evDay187] ∧
    filter_and_sort_events u0 [evJul8] = [] ∧
    filter_and_sort_events u0 [evDay179] = [] := by
  refine ⟨fun nowUtc events => stable_sort_perm key_le _, ?_,
    by decide, by decide, by decide⟩
  intro nowLocal e
  simp only [in_window, minutesDate_add_week, decide_eq_true_eq]

/-- C9: `validate_event` accepts exactly the events with non-empty source key
and name, an event name that is non-empty after stripping whitespace, and a
present date; `filter_valid_events` returns exactly the input events
`validate_event` accepts, dropping the others without producing any error. -/
theorem c9_validate_and_filter :
    ∀ (e : FoodTruckEvent) (events : List FoodTruckEvent),
      (validate_event e = true ↔
        (e.brewery_key ≠ "" ∧ e.brewery_name ≠ "" ∧
         pyStrip e.food_truck_name ≠ "" ∧ e.date.isSome = true)) ∧
      (e ∈ filter_valid_events events ↔ e ∈ events ∧ validate_event e = true) := by
  intro e events
  constructor
  · unfold validate_event
    split_ifs with h1 h2 h3
    · rcases h1 with h | h <;> simp [h]
    · rcases h2 with h | h
      · simp only [h]
        have : pyStrip "" = "" := rfl
        simp [this]
      · simp [h]
    · rw [Option.isNone_iff_eq_none] at h3
      simp [h3]
    · push_neg at h1 h2
      rw [Option.isNone_iff_eq_none] at h3
      simp [h1.1, h1.2, h2.2, Option.isSome_iff_ne_none, h3]
  · rw [filter_valid_events_eq_filter]
    exact List.mem_filter

/-- C10: `filter_valid_events` is exactly the standard list filter of
`validate_event`: same elements, same order, no duplication or modification. -/
theorem c10_filter_valid_is_filter :
    ∀ events : List FoodTruckEvent,
      filter_valid_events events = events.filter validate_event :=
  filter_valid_events_eq_filter
